import Mathlib

/-!
Shallow embedding of pip's `src/pip/_internal/wheel_builder.py`: the wheel
build orchestrator (`WheelBuilder.build`), its policy helpers (`should_build`,
`should_cache`), the two build protocols (legacy `setup.py bdist_wheel` and
PEP 517), and the tag-rewriting helper (`replace_python_tag`).

External collaborators (subprocess execution, the filesystem, the VCS layer,
the wheel cache's path derivation, `Link` mechanics) are modelled as oracle
records of plain functions; Python exceptions that the code does not catch
are modelled with `Except Unit` (an `.error ()` value is an exception
escaping the function), and caught exceptions of an external call are
modelled as an `Option`/`Bool` outcome supplied by the oracle.
-/

deriving instance DecidableEq for Except

namespace WheelBuilderModel

/-- Python truthiness of an optional string (`None` and `""` are falsy). -/
def optStrTruthy : Option String → Bool
  | some s => s ≠ ""
  | none => false

/-- A `Link`, as consumed by `wheel_builder.py`: only the attributes the file
reads are modelled. `splitextBase` stands for `link.splitext()[0]`, the
filename with its extension stripped (path mechanics are external). -/
structure Link where
  url : String
  scheme : String
  is_vcs : Bool
  splitextBase : String
  deriving DecidableEq, Repr

/-- An `InstallRequirement`, restricted to the attributes `wheel_builder.py`
reads. `has_delete_marker` stands for `has_delete_marker_file(req.source_dir)`
and `metadata_directory` for `req.metadata_directory`. -/
structure Req where
  name : String
  constraint : Bool
  is_wheel : Bool
  editable : Bool
  source_dir : Option String
  link : Option Link
  use_pep517 : Bool
  metadata_directory : Option String
  has_delete_marker : Bool
  deriving DecidableEq, Repr

/-- The log lines `wheel_builder.py` emits that the spec talks about. -/
inductive LogMsg where
  | skipAlreadyWheel (name : String)
  | skipBinariesDisabled (name : String)
  | failedBuilding (name : String)
  | pep517BuildOptionsError (name : String)
  | legacyNoFiles (name : String) (command_args : List String) (command_output : String)
  | legacyMultipleFiles (name : String) (names : List String)
      (command_args : List String) (command_output : String)
  | createdWheel (name : String)
  | runningClean (name : String)
  | cleanFailed (name : String)
  | dirCreationFailed (name : String)
  | copyFailed (name : String)
  deriving DecidableEq, Repr

/-- Model of `str.split(sep)` for a one-character separator, working down the
character list: every occurrence separates, empty pieces are kept, the
empty string splits to `[""]`. -/
def splitOnCharAux (sep : Char) : List Char → List Char → List String
  | [], acc => [String.mk acc.reverse]
  | c :: rest, acc =>
    if c = sep then String.mk acc.reverse :: splitOnCharAux sep rest []
    else splitOnCharAux sep rest (c :: acc)

/-- Model of `s.split(sep)`. -/
def splitOnChar (sep : Char) (s : String) : List String :=
  splitOnCharAux sep s.data []

/-- Model of `wheelname.split('-')`. -/
def splitDash (s : String) : List String :=
  splitOnChar '-' s

/-- Model of `'-'.join(parts)`. -/
def joinDash : List String → String
  | [] => ""
  | [s] => s
  | s :: rest => s ++ "-" ++ joinDash rest

/-- Translation of `replace_python_tag(wheelname, new_tag)`: split on `-`, assign
`parts[-3]`, rejoin. `parts[-3]` raises `IndexError` when there are fewer
than three parts; the `none` result models that exception. -/
def replace_python_tag (wheelname new_tag : String) : Option String :=
  let parts := splitDash wheelname
  if 3 ≤ parts.length then
    some (joinDash (parts.set (parts.length - 3) new_tag))
  else
    none

/-- A character matched by `[a-z0-9_.]` under `re.I`. -/
def isEggNameChar (c : Char) : Bool :=
  c.isAlpha || c.isDigit || c = '_' || c = '.'

/-- A character matched by `[a-z0-9_.!+-]` under `re.I`. -/
def isEggVerChar (c : Char) : Bool :=
  c.isAlpha || c.isDigit || c = '_' || c = '.' || c = '!' || c = '+' || c = '-'

/-- Model of `re.search` for `([a-z0-9_.]+)-([a-z0-9_.!+-]+)` (case-insensitive): a
match exists exactly when some name-class character is immediately followed
by a dash immediately followed by a version-class character, since both
classes only need one character and `search` scans every position. -/
def eggInfoSearch : List Char → Bool
  | c1 :: c2 :: c3 :: rest =>
    (isEggNameChar c1 && c2 = '-' && isEggVerChar c3) || eggInfoSearch (c2 :: c3 :: rest)
  | _ => false

/-- Translation of `_contains_egg_info(s)`: whether `s` looks like an egg-info
(`name-version`) string. -/
def _contains_egg_info (s : String) : Bool :=
  eggInfoSearch s.data

/-- Translation of `should_build(req, need_wheel, check_binary_allowed)` together with the
log lines it emits, translated clause by clause from the source. -/
def should_build_logs (req : Req) (need_wheel : Bool)
    (check_binary_allowed : Req → Bool) : Bool × List LogMsg :=
  if req.constraint then (false, [])
  else if req.is_wheel then
    (false, if need_wheel then [.skipAlreadyWheel req.name] else [])
  else if need_wheel then (true, [])
  else if req.editable || !optStrTruthy req.source_dir then (false, [])
  else if !check_binary_allowed req then (false, [.skipBinariesDisabled req.name])
  else (true, [])

/-- Translation of `should_build`, result only. -/
def should_build (req : Req) (need_wheel : Bool)
    (check_binary_allowed : Req → Bool) : Bool :=
  (should_build_logs req need_wheel check_binary_allowed).1

/-- One VCS backend, exposing the single capability `wheel_builder.py`
consumes: `is_immutable_rev_checkout(url, dest)`. -/
structure VcsBackend where
  is_immutable_rev_checkout : String → String → Bool

/-- The `vcs` registry: `get_backend_for_scheme`. -/
structure VcsRegistry where
  get_backend_for_scheme : String → Option VcsBackend

/-- Translation of `should_cache(req, check_binary_allowed)`. Here `none` models an exception
escaping: `assert vcs_backend` failing when no backend handles the scheme,
or `link.splitext()` on `req.link is None`. The asserts `not req.editable`
and `req.source_dir` in the VCS branch cannot fire because `should_build`
with `need_wheel=False` already guarantees both. -/
def should_cache (vcsReg : VcsRegistry) (req : Req)
    (check_binary_allowed : Req → Bool) : Option Bool :=
  if !should_build req false check_binary_allowed then some false
  else
    match req.link with
    | some l =>
      if l.is_vcs then
        match vcsReg.get_backend_for_scheme l.scheme with
        | some backend =>
            some (backend.is_immutable_rev_checkout l.url (req.source_dir.getD ""))
        | none => none
      else some (_contains_egg_info l.splitextBase)
    | none => none

/-- Model of `os.path.join(a, b)` for a relative `b`, as used here. -/
def pathJoin (a b : String) : String := a ++ "/" ++ b

/-- Model of `os.path.basename`. -/
def basename (p : String) : String := (splitOnChar '/' p).getLastD ""

/-- Model of `sorted(names)`: Python's lexicographic sort of the produced filenames. -/
def sortNames (names : List String) : List String :=
  List.insertionSort (· ≤ ·) names

/-- Translation of `get_legacy_build_wheel_path(names, temp_dir, name, command_args,
command_output)`: sort the listing for determinism; no file is a logged
failure (`None`), more than one file logs a warning, and the first sorted
name is returned joined onto the temp dir. -/
def get_legacy_build_wheel_path (names : List String) (temp_dir name : String)
    (command_args : List String) (command_output : String) :
    Option String × List LogMsg :=
  let sorted := sortNames names
  match sorted with
  | [] => (none, [.legacyNoFiles name command_args command_output])
  | first :: rest =>
    if rest.isEmpty then (some (pathJoin temp_dir first), [])
    else (some (pathJoin temp_dir first),
          [.legacyMultipleFiles name (first :: rest) command_args command_output])

/-- Outcome oracle for `_build_wheel_legacy`'s external calls:
`wheelArgs` is `make_setuptools_bdist_wheel_args(...)`, `commandOutcome` is
`call_subprocess`'s output (`none` = the call raised, caught by the
`except`), `listing` is `os.listdir(tempd)` after the command. -/
structure LegacyEnv where
  wheelArgs : List String
  commandOutcome : Option String
  listing : List String
  deriving DecidableEq, Repr

/-- Translation of `_build_wheel_legacy(name, ..., tempd, python_tag)`: run the external
command; on failure log and return `None`, else scan the destination
directory via `get_legacy_build_wheel_path`. -/
def _build_wheel_legacy (name : String) (env : LegacyEnv) (tempd : String) :
    Option String × List LogMsg :=
  match env.commandOutcome with
  | none => (none, [.failedBuilding name])
  | some output =>
      get_legacy_build_wheel_path env.listing tempd name env.wheelArgs output

/-- Outcome oracle for `_build_one_pep517`'s external calls:
`buildOutcome` is `backend.build_wheel(...)`'s returned wheel filename
(`none` = it raised), `renameOk` is whether the `os.rename` for a tag
override succeeds. -/
structure Pep517Env where
  buildOutcome : Option String
  renameOk : Bool
  deriving DecidableEq, Repr

/-- Translation of `_build_one_pep517(req, tempd, python_tag)`. The top-level
`assert req.metadata_directory is not None` sits outside the `try`, so its
failure escapes (`.error ()`); everything raised inside the `try` (backend
failure, `IndexError` from `replace_python_tag`, `os.rename` failure) is
caught and yields `None` with an error log. A non-empty `build_options`
list is rejected before invoking the backend. -/
def _build_one_pep517 (build_options : List String) (req : Req)
    (env : Pep517Env) (tempd : String) (python_tag : Option String) :
    Except Unit (Option String × List LogMsg) :=
  if req.metadata_directory = none then .error ()
  else if !build_options.isEmpty then
    .ok (none, [.pep517BuildOptionsError req.name])
  else
    match env.buildOutcome with
    | none => .ok (none, [.failedBuilding req.name])
    | some wheel_name =>
      match python_tag with
      | none => .ok (some (pathJoin tempd wheel_name), [])
      | some t =>
        match replace_python_tag wheel_name t with
        | none => .ok (none, [.failedBuilding req.name])
        | some new_name =>
          if env.renameOk then .ok (some (pathJoin tempd new_name), [])
          else .ok (none, [.failedBuilding req.name])

/-- Per-requirement outcome oracle for `_build_one_inside_env`: the legacy
and PEP 517 oracles, the fresh temp build directory's path, whether
`hash_file` + `shutil.move` into the output dir succeed, and whether the
`setup.py clean` subprocess succeeds. -/
structure BuildOneEnv where
  legacy : LegacyEnv
  pep517 : Pep517Env
  tempd : String
  moveOk : Bool
  cleanOk : Bool
  deriving DecidableEq, Repr

/-- What `_build_one_inside_env` did: the returned wheel path (`none` = the
build failed), whether `_clean_one` was invoked, its result, and the logs. -/
structure BuildOneResult where
  wheelFile : Option String
  cleanAttempted : Bool
  cleanSucceeded : Option Bool
  logs : List LogMsg
  deriving DecidableEq, Repr

/-- Translation of `_clean_one(req)`: run `setup.py clean`; log before, log an error on
failure, return whether it succeeded. -/
def _clean_one (cleanOk : Bool) (req : Req) : Bool × List LogMsg :=
  if cleanOk then (true, [.runningClean req.name])
  else (false, [.runningClean req.name, .cleanFailed req.name])

/-- The orchestrator's configuration: `wheel_dir` is
`preparer.wheel_download_dir`, the options are the constructor arguments,
`check_binary_allowed` defaults to always-true upstream. -/
structure WheelBuilderCfg where
  wheel_dir : Option String
  build_options : List String
  global_options : List String
  check_binary_allowed : Req → Bool

/-- The protocol dispatch at the top of `_build_one_inside_env`:
`if req.use_pep517: ... else: ...`. It reads only the backend oracles and
the temp dir, never `moveOk`/`cleanOk`. -/
def dispatchProtocol (cfg : WheelBuilderCfg) (env : BuildOneEnv) (req : Req)
    (python_tag : Option String) : Except Unit (Option String × List LogMsg) :=
  if req.use_pep517 then
    _build_one_pep517 cfg.build_options req env.pep517 env.tempd python_tag
  else
    .ok (_build_wheel_legacy req.name env.legacy env.tempd)

/-- Translation of `_build_one_inside_env(req, output_dir, python_tag)`: dispatch on
`req.use_pep517`; on a produced wheel, hash and move it into `output_dir`
(both inside one `try`, modelled by `moveOk`) and return the destination
path; on any failure run `_clean_one` (ignoring its result) and return
`None`. -/
def _build_one_inside_env (cfg : WheelBuilderCfg) (env : BuildOneEnv)
    (req : Req) (output_dir : String) (python_tag : Option String) :
    Except Unit BuildOneResult :=
  match dispatchProtocol cfg env req python_tag with
  | .error _ => .error ()
  | .ok (wheel_path, logs0) =>
    match wheel_path with
    | some wp =>
      if env.moveOk then
        .ok { wheelFile := some (pathJoin output_dir (basename wp)),
              cleanAttempted := false, cleanSucceeded := none,
              logs := logs0 ++ [.createdWheel req.name] }
      else
        let c := _clean_one env.cleanOk req
        .ok { wheelFile := none, cleanAttempted := true,
              cleanSucceeded := some c.1, logs := logs0 ++ c.2 }
    | none =>
      let c := _clean_one env.cleanOk req
      .ok { wheelFile := none, cleanAttempted := true,
            cleanSucceeded := some c.1, logs := logs0 ++ c.2 }

/-- Translation of `_build_one`: enter `req.build_env` (a scoped resource with no effect on
the result) and run `_build_one_inside_env`. -/
def _build_one (cfg : WheelBuilderCfg) (env : BuildOneEnv) (req : Req)
    (output_dir : String) (python_tag : Option String) :
    Except Unit BuildOneResult :=
  _build_one_inside_env cfg env req output_dir python_tag

/-- The `WheelCache` as consumed by `build`: `cache_dir` decides
`cache_available = bool(self.wheel_cache.cache_dir)`; the two path
derivations are external functions of the requirement's link. -/
structure CacheModel where
  cache_dir : Option String
  get_path_for_link : Option Link → String
  get_ephem_path_for_link : Option Link → String

/-- The run-wide oracle for `WheelBuilder.build`: the cache, the VCS
registry, a per-requirement build oracle, whether `ensure_dir(output_dir)`
succeeds for a requirement, whether the wheel-mode
`ensure_dir(self._wheel_dir)` + `shutil.copy` succeeds, whether
`Link(path_to_url(wheel_file)).is_wheel` holds for a built path,
`req.ensure_build_location(...)`'s result, and
`pep425tags.implementation_tag`. -/
structure OrchestraEnv where
  cache : CacheModel
  vcsReg : VcsRegistry
  benv : Req → BuildOneEnv
  ensureDirOk : Req → Bool
  copyOk : Req → Bool
  builtLinkIsWheel : String → Bool
  ensure_build_location : Req → String
  implementation_tag : String

/-- The output-directory resolution inside `build`'s first loop:
`if cache_available and should_cache(req, ...)` picks
`get_path_for_link`, anything else picks `get_ephem_path_for_link`; the
`and` short-circuits, so `should_cache` (and any exception inside it,
`.error ()`) is reached only when a persistent cache dir is configured. -/
def resolveOutputDir (cfg : WheelBuilderCfg) (env : OrchestraEnv) (req : Req) :
    Except Unit String :=
  if optStrTruthy env.cache.cache_dir then
    match should_cache env.vcsReg req cfg.check_binary_allowed with
    | none => .error ()
    | some true => .ok (env.cache.get_path_for_link req.link)
    | some false => .ok (env.cache.get_ephem_path_for_link req.link)
  else .ok (env.cache.get_ephem_path_for_link req.link)

/-- Translation of `build`'s first loop: keep the requirements `should_build` approves
(with `need_wheel = not should_unpack`), each paired with its resolved
output directory. -/
def computeBuildset (cfg : WheelBuilderCfg) (env : OrchestraEnv)
    (should_unpack : Bool) : List Req → Except Unit (List (Req × String))
  | [] => .ok []
  | req :: rest =>
    if should_build req (!should_unpack) cfg.check_binary_allowed then
      match resolveOutputDir cfg env req with
      | .error _ => .error ()
      | .ok od =>
        (computeBuildset cfg env should_unpack rest).map (fun bs => (req, od) :: bs)
    else computeBuildset cfg env should_unpack rest

/-- What one iteration of `build`'s second loop did with a requirement:
recorded in `build_failure`, recorded in `build_success` with the built
wheel path, or raised an uncaught exception aborting the whole run. -/
inductive OneOutcome where
  | failed
  | succeeded (wheel_file : String)
  | aborted
  deriving DecidableEq, Repr

/-- One iteration of `build`'s second loop: `ensure_dir(output_dir)`
(an `OSError` is caught: record failure, continue); `_build_one`; on a
wheel, Install mode (`should_unpack`) checks the removable-source marker
(raising `AssertionError` on a truthy source dir without a marker), removes
the source, re-establishes the build location, rewrites the link and
asserts it is a wheel, and unpacks; wheel mode copies into `_wheel_dir`
(an `OSError` records failure and continues). -/
def processOne (cfg : WheelBuilderCfg) (env : OrchestraEnv)
    (should_unpack : Bool) (req : Req) (output_dir : String)
    (python_tag : Option String) : OneOutcome :=
  if !env.ensureDirOk req then .failed
  else
    match _build_one cfg (env.benv req) req output_dir python_tag with
    | .error _ => .aborted
    | .ok r =>
      match r.wheelFile with
      | none => .failed
      | some wf =>
        if should_unpack then
          if optStrTruthy req.source_dir && !req.has_delete_marker then .aborted
          else if !env.builtLinkIsWheel wf then .aborted
          else .succeeded wf
        else
          if env.copyOk req then .succeeded wf else .failed

/-- The accumulated outcome of a run: `build_success` and `build_failure`
are the two lists `build` accumulates (the latter is its return value);
`wheel_filenames` is `self.wheel_filenames`, the built names relative to
their output directory. -/
structure BuildRunSummary where
  build_success : List Req
  build_failure : List Req
  wheel_filenames : List String
  deriving DecidableEq, Repr

/-- Model of `os.path.relpath(wheel_file, output_dir)` for the paths this code
produces (the wheel file sits directly inside the output directory). -/
def relpathSimple (p d : String) : String :=
  if (d ++ "/").isPrefixOf p then p.drop (d.length + 1) else p

/-- Translation of `build`'s second loop over the buildset, in order; an `.aborted`
iteration propagates as an uncaught exception (`.error ()`), discarding
the run. -/
def runBuildset (cfg : WheelBuilderCfg) (env : OrchestraEnv)
    (should_unpack : Bool) (python_tag : Option String) :
    List (Req × String) → Except Unit BuildRunSummary
  | [] => .ok ⟨[], [], []⟩
  | (req, od) :: rest =>
    match processOne cfg env should_unpack req od python_tag with
    | .aborted => .error ()
    | .failed =>
      (runBuildset cfg env should_unpack python_tag rest).map
        (fun s => { s with build_failure := req :: s.build_failure })
    | .succeeded wf =>
      (runBuildset cfg env should_unpack python_tag rest).map
        (fun s => { s with build_success := req :: s.build_success,
                           wheel_filenames := relpathSimple wf od :: s.wheel_filenames })

/-- Translation of `WheelBuilder.build(requirements, should_unpack)`. The opening `assert`
requires `should_unpack` exactly when no `_wheel_dir` is configured; an
empty buildset returns immediately; Install mode passes the interpreter's
implementation tag as the python-tag override. The Python function returns
`build_failure`; the summary also carries the success list and
`wheel_filenames` it accumulates. -/
def build (cfg : WheelBuilderCfg) (env : OrchestraEnv)
    (requirements : List Req) (should_unpack : Bool) :
    Except Unit BuildRunSummary :=
  if !((should_unpack && !optStrTruthy cfg.wheel_dir) ||
       (!should_unpack && optStrTruthy cfg.wheel_dir)) then .error ()
  else
    match computeBuildset cfg env should_unpack requirements with
    | .error _ => .error ()
    | .ok buildset =>
      if buildset.isEmpty then .ok ⟨[], [], []⟩
      else
        let python_tag :=
          if should_unpack then some env.implementation_tag else none
        runBuildset cfg env should_unpack python_tag buildset

/-- Whether a second-loop iteration recorded a success. -/
def isSucceededO : OneOutcome → Bool
  | .succeeded _ => true
  | _ => false

/-- Whether a second-loop iteration recorded a failure. -/
def isFailedO : OneOutcome → Bool
  | .failed => true
  | _ => false

/-- The built wheel path of a succeeded iteration, if any. -/
def wheelOfOutcome : OneOutcome → Option String
  | .succeeded wf => some wf
  | _ => none

/-- Whether `_build_one_inside_env` ran `_clean_one` (and did not raise). -/
def cleanAttemptedOf : Except Unit BuildOneResult → Bool
  | .ok r => r.cleanAttempted
  | .error _ => false

/- Concrete fixtures used to instantiate the theorems. -/

/-- A VCS backend whose every checkout is an immutable pin. -/
def vcsBackendTrue : VcsBackend := ⟨fun _ _ => true⟩

/-- A VCS backend whose every checkout is a movable reference. -/
def vcsBackendFalse : VcsBackend := ⟨fun _ _ => false⟩

/-- A registry serving `vcsBackendTrue` for every scheme. -/
def vcsRegTrue : VcsRegistry := ⟨fun _ => some vcsBackendTrue⟩

/-- A registry serving `vcsBackendFalse` for every scheme. -/
def vcsRegFalse : VcsRegistry := ⟨fun _ => some vcsBackendFalse⟩

/-- A git link pinned to some revision. -/
def vcsLink : Link := ⟨"git+https://h/p", "git+https", true, "p"⟩

/-- An sdist link whose stripped filename is `foo-2.1`. -/
def eggLink : Link := ⟨"https://h/foo-2.1.tar.gz", "https", false, "foo-2.1"⟩

/-- A buildable VCS requirement. -/
def reqVcs : Req :=
  ⟨"vcspkg", false, false, false, some "vsrc", some vcsLink, false, none, true⟩

/-- A buildable sdist requirement with an egg-info-shaped archive name. -/
def reqEgg : Req :=
  ⟨"eggpkg", false, false, false, some "esrc", some eggLink, false, none, true⟩

/-- A constraint-only requirement. -/
def reqConstraint : Req :=
  ⟨"conpkg", true, false, false, some "csrc", none, false, none, true⟩

/-- A buildable legacy-protocol requirement carrying the removable-source
marker. -/
def reqOk : Req :=
  ⟨"okpkg", false, false, false, some "osrc", none, false, none, true⟩

/-- A second legacy-protocol requirement, used as the failing one. -/
def reqFail : Req :=
  ⟨"failpkg", false, false, false, some "fsrc", none, false, none, true⟩

/-- A buildable legacy-protocol requirement without the removable-source
marker. -/
def reqNoMarker : Req :=
  ⟨"nomarker", false, false, false, some "nsrc", none, false, none, false⟩

/-- A buildable PEP 517 requirement. -/
def reqPep : Req :=
  ⟨"modpkg", false, false, false, some "psrc", none, true, some "meta", true⟩

/-- A legacy build whose command succeeds and leaves one wheel behind. -/
def benvLegacyOk : BuildOneEnv :=
  ⟨⟨["setup.py", "bdist_wheel"], some "out", ["okpkg-1.0-py3-none-any.whl"]⟩,
   ⟨none, true⟩, "tmp", true, true⟩

/-- A legacy build whose external command raises. -/
def benvLegacyFail : BuildOneEnv :=
  ⟨⟨["setup.py", "bdist_wheel"], none, []⟩, ⟨none, true⟩, "tmp", true, true⟩

/-- A PEP 517 build whose backend raises; the clean subprocess would fail
too. -/
def benvPepFail : BuildOneEnv :=
  ⟨⟨[], none, []⟩, ⟨none, true⟩, "tmp", true, false⟩

/-- A cache with no persistent root configured. -/
def cacheNone : CacheModel := ⟨none, fun _ => "cachedir", fun _ => "ephemdir"⟩

/-- A cache with a persistent root configured. -/
def cacheSome : CacheModel := ⟨some "root", fun _ => "cachedir", fun _ => "ephemdir"⟩

/-- The `pip install` configuration: no wheel dir, binaries allowed. -/
def cfgInstall : WheelBuilderCfg := ⟨none, [], [], fun _ => true⟩

/-- The `pip wheel` configuration: a wheel dir, binaries allowed. -/
def cfgWheel : WheelBuilderCfg := ⟨some "wdir", [], [], fun _ => true⟩

/-- A run oracle where everything external succeeds and `reqFail`'s build
command raises. -/
def envWheelRun : OrchestraEnv :=
  ⟨cacheNone, vcsRegTrue,
   fun r => if r.name = "failpkg" then benvLegacyFail else benvLegacyOk,
   fun _ => true, fun _ => true, fun _ => true, fun _ => "bloc", "cp38"⟩

/-- A run oracle with a persistent cache root, everything succeeding. -/
def envCacheRun : OrchestraEnv :=
  ⟨cacheSome, vcsRegTrue, fun _ => benvLegacyOk,
   fun _ => true, fun _ => true, fun _ => true, fun _ => "bloc", "cp38"⟩

/-! Theorems. -/

/-- C2: `should_build` evaluates its conditions in exactly this order and
returns the first matching result: constraint-only is false; already a
wheel is false, logging a skip exactly when a wheel is wanted; a wanted
wheel is true; editable or a missing source directory is false; a false
binary-allowed predicate is false with a skip log; otherwise true. -/
theorem should_build_clause_order (req : Req) (need_wheel : Bool)
    (cba : Req → Bool) :
    (req.constraint = true →
      should_build_logs req need_wheel cba = (false, [])) ∧
    (req.constraint = false → req.is_wheel = true →
      should_build_logs req need_wheel cba =
        (false, if need_wheel then [.skipAlreadyWheel req.name] else [])) ∧
    (req.constraint = false → req.is_wheel = false → need_wheel = true →
      should_build_logs req need_wheel cba = (true, [])) ∧
    (req.constraint = false → req.is_wheel = false → need_wheel = false →
      (req.editable = true ∨ optStrTruthy req.source_dir = false) →
      should_build_logs req need_wheel cba = (false, [])) ∧
    (req.constraint = false → req.is_wheel = false → need_wheel = false →
      req.editable = false → optStrTruthy req.source_dir = true →
      cba req = false →
      should_build_logs req need_wheel cba =
        (false, [.skipBinariesDisabled req.name])) ∧
    (req.constraint = false → req.is_wheel = false → need_wheel = false →
      req.editable = false → optStrTruthy req.source_dir = true →
      cba req = true →
      should_build_logs req need_wheel cba = (true, [])) := by
  refine ⟨?_, ?_, ?_, ?_, ?_, ?_⟩
  · intro h1
    simp [should_build_logs, h1]
  · intro h1 h2
    simp [should_build_logs, h1, h2]
  · intro h1 h2 h3
    simp [should_build_logs, h1, h2, h3]
  · intro h1 h2 h3 h4
    rcases h4 with h4 | h4 <;> simp [should_build_logs, h1, h2, h3, h4]
  · intro h1 h2 h3 h4 h5 h6
    simp [should_build_logs, h1, h2, h3, h4, h5, h6]
  · intro h1 h2 h3 h4 h5 h6
    simp [should_build_logs, h1, h2, h3, h4, h5, h6]

/-- Witness for C2: the constraint-only clause at a concrete requirement. -/
theorem should_build_clause_order_witness :
    reqConstraint.constraint = true ∧
    should_build_logs reqConstraint true (fun _ => true) = (false, []) :=
  ⟨by decide,
   (should_build_clause_order reqConstraint true (fun _ => true)).1 (by decide)⟩

/-- C8: for a filename with at least three dash-separated fields, the
tag-rewrite replaces exactly the third-from-last field with the override and
leaves every other field unchanged. -/
theorem replace_python_tag_only_python_tag (w t : String)
    (h : 3 ≤ (splitDash w).length) :
    replace_python_tag w t =
      some (joinDash ((splitDash w).set ((splitDash w).length - 3) t)) ∧
    ((splitDash w).set ((splitDash w).length - 3) t)[(splitDash w).length - 3]? =
      some t ∧
    ∀ i, i ≠ (splitDash w).length - 3 →
      ((splitDash w).set ((splitDash w).length - 3) t)[i]? =
        (splitDash w)[i]? := by
  refine ⟨?_, ?_, ?_⟩
  · simp [replace_python_tag, h]
  · exact List.getElem?_set_eq_of_lt t (by omega)
  · intro i hi
    exact List.getElem?_set_ne (Ne.symm hi)

/-- Witness for C8: the spec's example `pkg-1.0-cp39-cp39-linux_x86_64`
with override `py3` becomes `pkg-1.0-py3-cp39-linux_x86_64`. -/
theorem replace_python_tag_only_python_tag_witness :
    3 ≤ (splitDash "pkg-1.0-cp39-cp39-linux_x86_64").length ∧
    replace_python_tag "pkg-1.0-cp39-cp39-linux_x86_64" "py3" =
      some (joinDash ((splitDash "pkg-1.0-cp39-cp39-linux_x86_64").set
          ((splitDash "pkg-1.0-cp39-cp39-linux_x86_64").length - 3) "py3")) ∧
    replace_python_tag "pkg-1.0-cp39-cp39-linux_x86_64" "py3" =
      some "pkg-1.0-py3-cp39-linux_x86_64" :=
  ⟨by decide,
   (replace_python_tag_only_python_tag "pkg-1.0-cp39-cp39-linux_x86_64" "py3"
     (by decide)).1,
   by decide⟩

/-- C10: the tag-rewrite is defined only for filenames with at least three
dash-separated fields; with fewer it raises `IndexError` (modelled `none`)
instead of returning a filename, and with three or more it returns one. -/
theorem replace_python_tag_needs_three_fields (w t : String) :
    ((splitDash w).length < 3 → replace_python_tag w t = none) ∧
    (3 ≤ (splitDash w).length → ∃ r, replace_python_tag w t = some r) := by
  constructor
  · intro h
    simp [replace_python_tag]
    omega
  · intro h
    exact ⟨joinDash ((splitDash w).set ((splitDash w).length - 3) t),
      by simp [replace_python_tag, h]⟩

/-- Witness for C10: `pkg` has one field, so the rewrite raises. -/
theorem replace_python_tag_needs_three_fields_witness :
    (splitDash "pkg").length < 3 ∧ replace_python_tag "pkg" "py3" = none :=
  ⟨by decide, (replace_python_tag_needs_three_fields "pkg" "py3").1 (by decide)⟩

/-- C6: for a buildable VCS requirement whose scheme has a backend,
`should_cache` returns exactly the backend's immutable-pin verdict on the
checkout: cacheable iff the revision is an immutable pin. -/
theorem should_cache_vcs_iff_immutable (vcsReg : VcsRegistry) (req : Req)
    (cba : Req → Bool) (l : Link) (b : VcsBackend)
    (hsb : should_build req false cba = true)
    (hl : req.link = some l) (hvcs : l.is_vcs = true)
    (hb : vcsReg.get_backend_for_scheme l.scheme = some b) :
    should_cache vcsReg req cba =
      some (b.is_immutable_rev_checkout l.url (req.source_dir.getD "")) ∧
    (should_cache vcsReg req cba = some true ↔
      b.is_immutable_rev_checkout l.url (req.source_dir.getD "") = true) := by
  have h1 : should_cache vcsReg req cba =
      some (b.is_immutable_rev_checkout l.url (req.source_dir.getD "")) := by
    simp [should_cache, hsb, hl, hvcs, hb]
  refine ⟨h1, ?_⟩
  rw [h1]
  simp

/-- Witness for C6: a pinned checkout is cacheable, a movable one is not. -/
theorem should_cache_vcs_iff_immutable_witness :
    should_build reqVcs false (fun _ => true) = true ∧
    should_cache vcsRegTrue reqVcs (fun _ => true) = some true ∧
    should_cache vcsRegFalse reqVcs (fun _ => true) = some false :=
  ⟨by decide,
   by
    rw [(should_cache_vcs_iff_immutable vcsRegTrue reqVcs (fun _ => true)
      vcsLink vcsBackendTrue (by decide) (by decide) (by decide) rfl).1]
    rfl,
   by
    rw [(should_cache_vcs_iff_immutable vcsRegFalse reqVcs (fun _ => true)
      vcsLink vcsBackendFalse (by decide) (by decide) (by decide) rfl).1]
    rfl⟩

/-- C9: for a buildable non-VCS requirement with a link, `should_cache`
returns exactly whether the link's extension-stripped filename contains an
egg-info (`name-version`) pattern. -/
theorem should_cache_non_vcs_egg_info (vcsReg : VcsRegistry) (req : Req)
    (cba : Req → Bool) (l : Link)
    (hsb : should_build req false cba = true)
    (hl : req.link = some l) (hnv : l.is_vcs = false) :
    should_cache vcsReg req cba = some (_contains_egg_info l.splitextBase) ∧
    (should_cache vcsReg req cba = some true ↔
      _contains_egg_info l.splitextBase = true) := by
  have h1 : should_cache vcsReg req cba =
      some (_contains_egg_info l.splitextBase) := by
    simp [should_cache, hsb, hl, hnv]
  refine ⟨h1, ?_⟩
  rw [h1]
  simp

/-- Witness for C9: the archive name `foo-2.1` makes the sdist requirement
cacheable. -/
theorem should_cache_non_vcs_egg_info_witness :
    should_build reqEgg false (fun _ => true) = true ∧
    _contains_egg_info eggLink.splitextBase = true ∧
    should_cache vcsRegTrue reqEgg (fun _ => true) = some true :=
  ⟨by decide, by decide,
   by
    rw [(should_cache_non_vcs_egg_info vcsRegTrue reqEgg (fun _ => true)
      eggLink (by decide) (by decide) (by decide)).1]
    decide⟩

/-- Sorting keeps exactly the original elements. -/
theorem sortNames_perm (names : List String) :
    List.Perm (sortNames names) names :=
  List.perm_insertionSort _ names

/-- Sorting sorts. -/
theorem sortNames_sorted (names : List String) :
    List.Sorted (· ≤ ·) (sortNames names) :=
  List.sorted_insertionSort _ names

/-- The head of `sorted(names)` is a least element of `names`. -/
theorem sortNames_head_min (names : List String) (m : String)
    (rest : List String) (hs : sortNames names = m :: rest) :
    m ∈ names ∧ ∀ y ∈ names, m ≤ y := by
  have hperm : List.Perm (sortNames names) names := sortNames_perm names
  have hsort := sortNames_sorted names
  rw [hs] at hperm hsort
  constructor
  · exact hperm.mem_iff.mp (List.mem_cons_self m rest)
  · intro y hy
    rcases List.mem_cons.mp (hperm.mem_iff.mpr hy) with rfl | hy'
    · exact le_refl y
    · exact (List.sorted_cons.mp hsort).1 y hy'

/-- C4: after a successful legacy command, the destination listing decides
the result: no file is a logged failure, one file is returned as the wheel
path, two or more return the lexicographically-least name after a
warning. -/
theorem legacy_build_wheel_path_by_file_count (names : List String)
    (temp_dir name : String) (args : List String) (out : String) :
    (names = [] →
      get_legacy_build_wheel_path names temp_dir name args out =
        (none, [.legacyNoFiles name args out])) ∧
    (∀ x, names = [x] →
      get_legacy_build_wheel_path names temp_dir name args out =
        (some (pathJoin temp_dir x), [])) ∧
    (2 ≤ names.length →
      ∃ m, m ∈ names ∧ (∀ y ∈ names, m ≤ y) ∧
        get_legacy_build_wheel_path names temp_dir name args out =
          (some (pathJoin temp_dir m),
           [.legacyMultipleFiles name (sortNames names) args out])) := by
  refine ⟨?_, ?_, ?_⟩
  · intro h
    subst h
    rfl
  · intro x h
    subst h
    rfl
  · intro h
    have hlen : (sortNames names).length = names.length :=
      (sortNames_perm names).length_eq
    cases hs : sortNames names with
    | nil =>
      rw [hs] at hlen
      simp at hlen
      omega
    | cons m rest =>
      have hmin := sortNames_head_min names m rest hs
      refine ⟨m, hmin.1, hmin.2, ?_⟩
      have hrest : rest ≠ [] := by
        rw [hs] at hlen
        intro hnil
        subst hnil
        simp at hlen
        omega
      simp only [get_legacy_build_wheel_path, hs]
      simp [List.isEmpty_iff, hrest]

/-- Witness for C4: of `b.whl` and `a.whl`, the build returns `a.whl`. -/
theorem legacy_build_wheel_path_by_file_count_witness :
    2 ≤ (["b.whl", "a.whl"] : List String).length ∧
    ∃ m, m ∈ ["b.whl", "a.whl"] ∧ (∀ y ∈ ["b.whl", "a.whl"], m ≤ y) ∧
      get_legacy_build_wheel_path ["b.whl", "a.whl"] "tdir" "pkg" ["cmd"] "out" =
        (some (pathJoin "tdir" m),
         [.legacyMultipleFiles "pkg" (sortNames ["b.whl", "a.whl"]) ["cmd"] "out"]) :=
  ⟨by decide,
   (legacy_build_wheel_path_by_file_count ["b.whl", "a.whl"] "tdir" "pkg"
     ["cmd"] "out").2.2 (by decide)⟩

/-- Counterexample to C7 as stated: `_clean_one` is also attempted when a
modern-protocol (PEP 517) build fails, not only for legacy builds — here a
PEP 517 requirement whose backend raises still gets the clean attempt. -/
theorem clean_attempted_for_pep517_too :
    reqPep.use_pep517 = true ∧
    cleanAttemptedOf
      (_build_one_inside_env cfgInstall benvPepFail reqPep "odir" none) = true := by
  decide

/-- A dispatch that produced no wheel ends in the clean-then-fail record. -/
theorem build_one_fail_of_dispatch_none (cfg : WheelBuilderCfg)
    (env : BuildOneEnv) (req : Req) (od : String) (pt : Option String)
    (logs0 : List LogMsg)
    (hd : dispatchProtocol cfg env req pt = .ok (none, logs0)) :
    _build_one_inside_env cfg env req od pt =
      .ok { wheelFile := none, cleanAttempted := true,
            cleanSucceeded := some (_clean_one env.cleanOk req).1,
            logs := logs0 ++ (_clean_one env.cleanOk req).2 } := by
  simp only [_build_one_inside_env, hd]

/-- A dispatch that produced a wheel which could not be moved ends in the
clean-then-fail record. -/
theorem build_one_fail_of_move_failure (cfg : WheelBuilderCfg)
    (env : BuildOneEnv) (req : Req) (od : String) (pt : Option String)
    (w : String) (logs0 : List LogMsg)
    (hd : dispatchProtocol cfg env req pt = .ok (some w, logs0))
    (hm : env.moveOk = false) :
    _build_one_inside_env cfg env req od pt =
      .ok { wheelFile := none, cleanAttempted := true,
            cleanSucceeded := some (_clean_one env.cleanOk req).1,
            logs := logs0 ++ (_clean_one env.cleanOk req).2 } := by
  simp only [_build_one_inside_env, hd, hm]
  simp

/-- C7 (amended): on any build failure — regardless of protocol — the
orchestrator attempts the clean command, records its outcome without acting
on it (only an error log distinguishes a failed clean, and flipping the
clean outcome never changes the build result), and the requirement is
recorded as failed. -/
theorem build_failure_cleans_and_records (cfg : WheelBuilderCfg)
    (env : BuildOneEnv) (req : Req) (od : String) (pt : Option String)
    (r : BuildOneResult)
    (h : _build_one_inside_env cfg env req od pt = .ok r)
    (hfail : r.wheelFile = none) :
    r.cleanAttempted = true ∧
    r.cleanSucceeded = some (_clean_one env.cleanOk req).1 ∧
    (env.cleanOk = false → LogMsg.cleanFailed req.name ∈ r.logs) ∧
    (∀ b : Bool, ∃ r2,
      _build_one_inside_env cfg { env with cleanOk := b } req od pt = .ok r2 ∧
      r2.wheelFile = none ∧ r2.cleanAttempted = true) ∧
    (∀ oenv : OrchestraEnv, ∀ su : Bool, oenv.benv req = env →
      oenv.ensureDirOk req = true →
      processOne cfg oenv su req od pt = .failed) := by
  have hrec : ∀ oenv : OrchestraEnv, ∀ su : Bool, oenv.benv req = env →
      oenv.ensureDirOk req = true →
      processOne cfg oenv su req od pt = .failed := by
    intro oenv su hbe hdir
    simp only [processOne, hdir, Bool.not_true, Bool.false_eq_true, if_false,
      hbe, _build_one, h, hfail]
  cases hd : dispatchProtocol cfg env req pt with
  | error e =>
    simp only [_build_one_inside_env, hd] at h
    exact absurd h (by simp)
  | ok pr =>
    obtain ⟨wp, logs0⟩ := pr
    have hd2 : ∀ b : Bool,
        dispatchProtocol cfg { env with cleanOk := b } req pt =
          .ok (wp, logs0) := fun _ => hd
    cases wp with
    | some w =>
      cases hmove : env.moveOk with
      | true =>
        simp only [_build_one_inside_env, hd, hmove, if_true] at h
        injection h with h
        rw [← h] at hfail
        simp at hfail
      | false =>
        simp only [_build_one_inside_env, hd, hmove, Bool.false_eq_true,
          if_false] at h
        injection h with h
        subst h
        refine ⟨rfl, rfl, ?_, ?_, hrec⟩
        · intro hclean
          simp [_clean_one, hclean]
        · intro b
          refine ⟨_, build_one_fail_of_move_failure cfg
            { legacy := env.legacy, pep517 := env.pep517, tempd := env.tempd,
              moveOk := false, cleanOk := b } req od pt w logs0 (hd2 b) rfl,
            ?_, ?_⟩
          · rfl
          · rfl
    | none =>
      simp only [_build_one_inside_env, hd] at h
      injection h with h
      subst h
      refine ⟨rfl, rfl, ?_, ?_, hrec⟩
      · intro hclean
        simp [_clean_one, hclean]
      · intro b
        refine ⟨_, build_one_fail_of_dispatch_none cfg { env with cleanOk := b }
          req od pt logs0 (hd2 b), ?_, ?_⟩
        · rfl
        · rfl

/-- Witness for C7 (amended): a failed legacy build with a failing clean
command still ends as an ordinary recorded failure. -/
theorem build_failure_cleans_and_records_witness :
    _build_one_inside_env cfgWheel benvLegacyFail reqFail "odir" none =
      .ok ⟨none, true, some true,
        [.failedBuilding "failpkg", .runningClean "failpkg"]⟩ ∧
    processOne cfgWheel envWheelRun false reqFail "odir" none = .failed :=
  ⟨by decide,
   (build_failure_cleans_and_records cfgWheel benvLegacyFail reqFail "odir" none
     ⟨none, true, some true, [.failedBuilding "failpkg", .runningClean "failpkg"]⟩
     (by decide) (by decide)).2.2.2.2 envWheelRun false (by decide) (by decide)⟩

/-- Every pair the first loop keeps was approved by `should_build` and got
its directory from `resolveOutputDir`. -/
theorem computeBuildset_mem (cfg : WheelBuilderCfg) (env : OrchestraEnv)
    (su : Bool) :
    ∀ reqs bs, computeBuildset cfg env su reqs = .ok bs →
      ∀ req od, (req, od) ∈ bs →
        should_build req (!su) cfg.check_binary_allowed = true ∧
        resolveOutputDir cfg env req = .ok od := by
  intro reqs
  induction reqs with
  | nil =>
    intro bs h req od hm
    simp only [computeBuildset] at h
    injection h with h
    subst h
    simp at hm
  | cons r rest ih =>
    intro bs h req od hm
    simp only [computeBuildset] at h
    cases hsb : should_build r (!su) cfg.check_binary_allowed with
    | false =>
      rw [hsb] at h
      simp only [Bool.false_eq_true, if_false] at h
      exact ih bs h req od hm
    | true =>
      rw [hsb] at h
      simp only [if_true] at h
      cases hro : resolveOutputDir cfg env r with
      | error e =>
        rw [hro] at h
        exact absurd h (by simp)
      | ok od' =>
        rw [hro] at h
        cases hrest : computeBuildset cfg env su rest with
        | error e =>
          rw [hrest] at h
          exact absurd h (by simp [Except.map])
        | ok bs' =>
          rw [hrest] at h
          simp only [Except.map] at h
          injection h with h
          subst h
          rcases List.mem_cons.mp hm with heq | hm'
          · obtain ⟨h1, h2⟩ := Prod.mk.injEq .. ▸ heq
            subst h1
            subst h2
            exact ⟨hsb, hro⟩
          · exact ih bs' hrest req od hm'

/-- Without a persistent cache root, the first loop never consults
`should_cache` and so never raises from it. -/
theorem computeBuildset_total_without_cache (cfg : WheelBuilderCfg)
    (env : OrchestraEnv) (su : Bool)
    (hc : optStrTruthy env.cache.cache_dir = false) :
    ∀ reqs, ∃ bs, computeBuildset cfg env su reqs = .ok bs := by
  intro reqs
  induction reqs with
  | nil => exact ⟨[], rfl⟩
  | cons r rest ih =>
    rcases ih with ⟨bs, hbs⟩
    cases hsb : should_build r (!su) cfg.check_binary_allowed with
    | false =>
      refine ⟨bs, ?_⟩
      simp [computeBuildset, hsb, hbs]
    | true =>
      refine ⟨(r, env.cache.get_ephem_path_for_link r.link) :: bs, ?_⟩
      simp [computeBuildset, hsb, resolveOutputDir, hc, hbs, Except.map]

/-- C5: a requirement in the batch is paired with the persistent-cache
directory exactly when a cache root is configured and `should_cache`
approves; in every other case it gets the ephemeral directory, and without
a cache root `should_cache` is never consulted (the first loop cannot raise
from it). -/
theorem persistent_cache_needs_root_and_policy (cfg : WheelBuilderCfg)
    (env : OrchestraEnv) (su : Bool) :
    (∀ reqs bs req od,
      computeBuildset cfg env su reqs = .ok bs → (req, od) ∈ bs →
        (optStrTruthy env.cache.cache_dir = true →
          (should_cache env.vcsReg req cfg.check_binary_allowed = some true ∧
            od = env.cache.get_path_for_link req.link) ∨
          (should_cache env.vcsReg req cfg.check_binary_allowed = some false ∧
            od = env.cache.get_ephem_path_for_link req.link)) ∧
        (optStrTruthy env.cache.cache_dir = false →
          od = env.cache.get_ephem_path_for_link req.link)) ∧
    (optStrTruthy env.cache.cache_dir = false →
      ∀ reqs, ∃ bs, computeBuildset cfg env su reqs = .ok bs) := by
  constructor
  · intro reqs bs req od hbs hm
    have hro := (computeBuildset_mem cfg env su reqs bs hbs req od hm).2
    constructor
    · intro hc
      rw [resolveOutputDir, hc, if_pos rfl] at hro
      cases hsc : should_cache env.vcsReg req cfg.check_binary_allowed with
      | none =>
        rw [hsc] at hro
        exact absurd hro (by simp)
      | some cacheable =>
        rw [hsc] at hro
        cases cacheable with
        | true =>
          left
          refine ⟨rfl, ?_⟩
          injection hro with hro
          exact hro.symm
        | false =>
          right
          refine ⟨rfl, ?_⟩
          injection hro with hro
          exact hro.symm
    · intro hc
      rw [resolveOutputDir, hc] at hro
      simp only [Bool.false_eq_true, if_false] at hro
      injection hro with hro
      exact hro.symm
  · exact fun hc => computeBuildset_total_without_cache cfg env su hc

/-- Witness for C5: with a cache root configured and a cacheable sdist, the
batch pairs the requirement with the persistent cache directory. -/
theorem persistent_cache_needs_root_and_policy_witness :
    computeBuildset cfgWheel envCacheRun false [reqEgg] =
      .ok [(reqEgg, "cachedir")] ∧
    ((should_cache envCacheRun.vcsReg reqEgg cfgWheel.check_binary_allowed =
        some true ∧
      "cachedir" = envCacheRun.cache.get_path_for_link reqEgg.link) ∨
     (should_cache envCacheRun.vcsReg reqEgg cfgWheel.check_binary_allowed =
        some false ∧
      "cachedir" = envCacheRun.cache.get_ephem_path_for_link reqEgg.link)) :=
  ⟨by decide,
   ((persistent_cache_needs_root_and_policy cfgWheel envCacheRun false).1
     [reqEgg] [(reqEgg, "cachedir")] reqEgg "cachedir" (by decide)
     (by decide)).1 (by decide)⟩

/-- Counting helper: two pointwise-complementary filters split a list's
length. -/
theorem filter_complement_length {α : Type} (p q : α → Bool) :
    ∀ l : List α, (∀ x ∈ l, q x = !p x) →
      (l.filter p).length + (l.filter q).length = l.length := by
  intro l
  induction l with
  | nil => intro _; rfl
  | cons x xs ih =>
    intro h
    have hx := h x (List.mem_cons_self x xs)
    have hxs := fun y hy => h y (List.mem_cons_of_mem x hy)
    cases hpx : p x with
    | true =>
      rw [hpx] at hx
      simp only [List.filter, hpx, hx, Bool.not_true]
      simp only [List.length_cons]
      have := ih hxs
      omega
    | false =>
      rw [hpx] at hx
      simp only [List.filter, hpx, hx, Bool.not_false]
      simp only [List.length_cons]
      have := ih hxs
      omega

/-- With no aborting iteration, the second loop records every buildset
entry as exactly one of failure or success, in order. -/
theorem runBuildset_no_abort (cfg : WheelBuilderCfg) (env : OrchestraEnv)
    (su : Bool) (pt : Option String) :
    ∀ bs : List (Req × String),
      (∀ p ∈ bs, processOne cfg env su p.1 p.2 pt ≠ .aborted) →
      runBuildset cfg env su pt bs =
        .ok ⟨(bs.filter fun p => isSucceededO (processOne cfg env su p.1 p.2 pt)).map
               Prod.fst,
             (bs.filter fun p => isFailedO (processOne cfg env su p.1 p.2 pt)).map
               Prod.fst,
             bs.filterMap fun p =>
               (wheelOfOutcome (processOne cfg env su p.1 p.2 pt)).map
                 (fun wf => relpathSimple wf p.2)⟩ := by
  intro bs
  induction bs with
  | nil => intro _; rfl
  | cons p rest ih =>
    intro hno
    obtain ⟨req, od⟩ := p
    have hp := hno (req, od) (List.mem_cons_self _ _)
    have hrest := fun q hq => hno q (List.mem_cons_of_mem (req, od) hq)
    cases hpo : processOne cfg env su req od pt with
    | aborted => exact absurd hpo hp
    | failed =>
      simp only [runBuildset, hpo, ih hrest, Except.map]
      simp [List.filter, List.filterMap, hpo, isFailedO, isSucceededO,
        wheelOfOutcome]
    | succeeded wf =>
      simp only [runBuildset, hpo, ih hrest, Except.map]
      simp [List.filter, List.filterMap, hpo, isFailedO, isSucceededO,
        wheelOfOutcome]

/-- C1: when every buildset iteration ends without an uncaught exception,
`build` returns, its failed list is exactly the requirements whose
iteration failed (build, directory-creation or copy failure) in order, its
success list is exactly the rest in order, every processed requirement
lands in exactly one of the two, and the counts add up — so no
requirement's failure blocks a later one. -/
theorem batch_failures_isolated (cfg : WheelBuilderCfg) (env : OrchestraEnv)
    (reqs : List Req) (su : Bool) (bs : List (Req × String))
    (hpre : ((su && !optStrTruthy cfg.wheel_dir) ||
             (!su && optStrTruthy cfg.wheel_dir)) = true)
    (hbs : computeBuildset cfg env su reqs = .ok bs)
    (hno : ∀ p ∈ bs, processOne cfg env su p.1 p.2
      (if su then some env.implementation_tag else none) ≠ .aborted) :
    ∃ s, build cfg env reqs su = .ok s ∧
      s.build_failure =
        (bs.filter fun p => isFailedO (processOne cfg env su p.1 p.2
          (if su then some env.implementation_tag else none))).map Prod.fst ∧
      s.build_success =
        (bs.filter fun p => isSucceededO (processOne cfg env su p.1 p.2
          (if su then some env.implementation_tag else none))).map Prod.fst ∧
      (∀ p ∈ bs, isFailedO (processOne cfg env su p.1 p.2
          (if su then some env.implementation_tag else none)) =
        !isSucceededO (processOne cfg env su p.1 p.2
          (if su then some env.implementation_tag else none))) ∧
      s.build_failure.length + s.build_success.length = bs.length := by
  have hcompl : ∀ p ∈ bs, isFailedO (processOne cfg env su p.1 p.2
      (if su then some env.implementation_tag else none)) =
      !isSucceededO (processOne cfg env su p.1 p.2
        (if su then some env.implementation_tag else none)) := by
    intro p hp
    cases hpo : processOne cfg env su p.1 p.2
        (if su then some env.implementation_tag else none) with
    | aborted => exact absurd hpo (hno p hp)
    | failed => rfl
    | succeeded wf => rfl
  have hlen := filter_complement_length
    (fun p => isSucceededO (processOne cfg env su p.1 p.2
      (if su then some env.implementation_tag else none)))
    (fun p => isFailedO (processOne cfg env su p.1 p.2
      (if su then some env.implementation_tag else none))) bs hcompl
  cases hbse : bs with
  | nil =>
    refine ⟨⟨[], [], []⟩, ?_, rfl, rfl, by simp, rfl⟩
    simp only [build, hpre, Bool.not_true, Bool.false_eq_true, if_false,
      hbs, hbse]
    rfl
  | cons b rest =>
    subst hbse
    refine ⟨⟨((b :: rest).filter fun p => isSucceededO (processOne cfg env su
        p.1 p.2 (if su then some env.implementation_tag else none))).map
          Prod.fst,
      ((b :: rest).filter fun p => isFailedO (processOne cfg env su p.1 p.2
        (if su then some env.implementation_tag else none))).map Prod.fst,
      (b :: rest).filterMap fun p =>
        (wheelOfOutcome (processOne cfg env su p.1 p.2
          (if su then some env.implementation_tag else none))).map
            (fun wf => relpathSimple wf p.2)⟩, ?_, rfl, rfl, hcompl, ?_⟩
    · simp only [build, hpre, Bool.not_true, Bool.false_eq_true, if_false, hbs]
      simp only [List.isEmpty_cons, Bool.false_eq_true, if_false]
      exact runBuildset_no_abort cfg env su
        (if su then some env.implementation_tag else none) (b :: rest) hno
    · simp only [List.length_map]
      omega

/-- Witness for C1: a two-requirement wheel-mode batch where one legacy
build fails; the other is still built and the lists split the batch. -/
theorem batch_failures_isolated_witness :
    ((false && !optStrTruthy cfgWheel.wheel_dir) ||
      (!false && optStrTruthy cfgWheel.wheel_dir)) = true ∧
    computeBuildset cfgWheel envWheelRun false [reqOk, reqFail] =
      .ok [(reqOk, "ephemdir"), (reqFail, "ephemdir")] ∧
    (∃ s, build cfgWheel envWheelRun [reqOk, reqFail] false = .ok s ∧
      s.build_failure =
        ([(reqOk, "ephemdir"), (reqFail, "ephemdir")].filter fun p =>
          isFailedO (processOne cfgWheel envWheelRun false p.1 p.2
            (if false then some envWheelRun.implementation_tag else none))).map
          Prod.fst ∧
      s.build_success =
        ([(reqOk, "ephemdir"), (reqFail, "ephemdir")].filter fun p =>
          isSucceededO (processOne cfgWheel envWheelRun false p.1 p.2
            (if false then some envWheelRun.implementation_tag else none))).map
          Prod.fst ∧
      (∀ p ∈ [(reqOk, "ephemdir"), (reqFail, "ephemdir")],
        isFailedO (processOne cfgWheel envWheelRun false p.1 p.2
            (if false then some envWheelRun.implementation_tag else none)) =
          !isSucceededO (processOne cfgWheel envWheelRun false p.1 p.2
            (if false then some envWheelRun.implementation_tag else none))) ∧
      s.build_failure.length + s.build_success.length =
        [(reqOk, "ephemdir"), (reqFail, "ephemdir")].length) :=
  ⟨by decide, by decide,
   batch_failures_isolated cfgWheel envWheelRun [reqOk, reqFail] false
     [(reqOk, "ephemdir"), (reqFail, "ephemdir")]
     (by decide) (by decide) (by decide)⟩

/-- An uncaught exception in one iteration propagates out of the second
loop, discarding the run. -/
theorem runBuildset_abort_propagates (cfg : WheelBuilderCfg)
    (env : OrchestraEnv) (su : Bool) (pt : Option String) :
    ∀ pre : List (Req × String), ∀ req od post,
      (∀ p ∈ pre, processOne cfg env su p.1 p.2 pt ≠ .aborted) →
      processOne cfg env su req od pt = .aborted →
      runBuildset cfg env su pt (pre ++ (req, od) :: post) = .error () := by
  intro pre
  induction pre with
  | nil =>
    intro req od post _ habort
    simp [runBuildset, habort]
  | cons q qs ih =>
    intro req od post hpre habort
    obtain ⟨qr, qo⟩ := q
    have hq := hpre (qr, qo) (List.mem_cons_self _ _)
    have hqs := fun p hp => hpre p (List.mem_cons_of_mem (qr, qo) hp)
    have htail := ih req od post hqs habort
    cases hpo : processOne cfg env su qr qo pt with
    | aborted => exact absurd hpo hq
    | failed => simp [runBuildset, hpo, htail, Except.map]
    | succeeded wf => simp [runBuildset, hpo, htail, Except.map]

/-- C3: in Install mode, a successfully built requirement whose (truthy)
prior source directory lacks the removable-temporary-source marker makes
the whole `build` call raise (`.error ()`): the requirement is not recorded
as failed and no later requirement is processed. -/
theorem install_missing_marker_aborts_run (cfg : WheelBuilderCfg)
    (env : OrchestraEnv) (reqs : List Req) (bs pre post : List (Req × String))
    (req : Req) (od : String) (r : BuildOneResult) (wf : String)
    (hwd : optStrTruthy cfg.wheel_dir = false)
    (hbs : computeBuildset cfg env true reqs = .ok bs)
    (hsplit : bs = pre ++ (req, od) :: post)
    (hprev : ∀ p ∈ pre, processOne cfg env true p.1 p.2
      (some env.implementation_tag) ≠ .aborted)
    (hdir : env.ensureDirOk req = true)
    (hbuilt : _build_one cfg (env.benv req) req od
      (some env.implementation_tag) = .ok r)
    (hwf : r.wheelFile = some wf)
    (hsrc : optStrTruthy req.source_dir = true)
    (hmarker : req.has_delete_marker = false) :
    build cfg env reqs true = .error () := by
  have habort : processOne cfg env true req od
      (some env.implementation_tag) = .aborted := by
    simp [processOne, hdir, hbuilt, hwf, hsrc, hmarker]
  have hrun := runBuildset_abort_propagates cfg env true
    (some env.implementation_tag) pre req od post hprev habort
  simp only [build, hwd, Bool.not_false, Bool.and_true, Bool.true_and,
    Bool.not_true, Bool.false_and, Bool.or_false, Bool.and_false, hbs]
  subst hsplit
  have hne : (pre ++ (req, od) :: post).isEmpty = false := by
    cases pre <;> rfl
  simp only [hne, Bool.false_eq_true, if_false, if_true]
  exact hrun

/-- Witness for C3: one Install-mode requirement, successfully built but
missing the marker, aborts the run. -/
theorem install_missing_marker_aborts_run_witness :
    optStrTruthy cfgInstall.wheel_dir = false ∧
    computeBuildset cfgInstall envWheelRun true [reqNoMarker] =
      .ok [(reqNoMarker, "ephemdir")] ∧
    _build_one cfgInstall (envWheelRun.benv reqNoMarker) reqNoMarker
        "ephemdir" (some envWheelRun.implementation_tag) =
      .ok ⟨some "ephemdir/okpkg-1.0-py3-none-any.whl", false, none,
        [.createdWheel "nomarker"]⟩ ∧
    optStrTruthy reqNoMarker.source_dir = true ∧
    reqNoMarker.has_delete_marker = false ∧
    build cfgInstall envWheelRun [reqNoMarker] true = .error () :=
  ⟨by decide, by decide, by decide, by decide, by decide,
   install_missing_marker_aborts_run cfgInstall envWheelRun [reqNoMarker]
     [(reqNoMarker, "ephemdir")] [] [] reqNoMarker "ephemdir"
     ⟨some "ephemdir/okpkg-1.0-py3-none-any.whl", false, none,
       [.createdWheel "nomarker"]⟩
     "ephemdir/okpkg-1.0-py3-none-any.whl"
     (by decide) (by decide) rfl (by decide) (by decide) (by decide)
     (by decide) (by decide) (by decide)⟩

end WheelBuilderModel
